import Mathlib

/-!
Shallow embedding of `src/envs/ast_env.py` (class `ASTEnv`): the capacity
schema, the raw engine state struct (`State`), the observation dictionary
produced by `get_state`, and the operations `__init__`, `get_state`,
`pad_states`, `unpad_states`, `step` and `reset`.

Machine integers (ctypes `c_int`) are modelled as `Int`; fixed-capacity
ctypes arrays are modelled as `List Int` whose length equals the declared
capacity (the ctypes layer guarantees this shape; theorems carry it as an
explicit hypothesis where needed).  The `edges` field is modelled after the
`reshape(-1, 3)` in `get_state` as a list of `max_num_nodes * 3` triples,
and `args_in_scope` after its `reshape(-1, 2)` as a list of `max_num_vars`
pairs.  The native engine (`astclib.so`) is external to the repository; its
operations appear as an `EngineOps` record of opaque functions.
-/

/-- Constructor arguments of `ASTEnv.__init__` (source lines 16-29), with the
source's default values.  Capacities are sizes of ctypes array types, hence
naturals; `num_node_descriptor` is only ever used as an integer summand in
`node_nvec`, so it is kept as `Int`. -/
structure Config where
  max_num_nodes : Nat
  num_node_descriptor : Int
  num_assignments : Nat
  code_per_assignment : List Nat
  num_actions : Nat
  assignment_dir : String
  perturbation : Int := 0
  max_num_tests : Nat := 10
  max_tree_length : Nat := 10000
  max_num_vars : Nat := 10
  seed : Int := 0
deriving Repr, DecidableEq

/-- The constructed `ASTEnv` object: the attributes set by `__init__`
(source lines 52-88).  `action_space_n` is the size of
`gym.spaces.Discrete(num_actions + max_num_vars)`; `obs_node_nvec` is the
per-entry bound `num_node_descriptor + max_num_vars + 1` of `node_nvec`;
`obs_edges_rows` is the row count `max_num_nodes * 3` of the edges
observation; `obs_permitted_len` is the `MultiBinary` length
`num_actions + max_num_vars * 2`; `obs_assignment_n` is the size of the
`Discrete(num_assignments)` space that `reset` samples from.  The CDLL
handle and the `init_c(seed)` engine call have no effect on the Python
object's own attributes and are not modelled. -/
structure Env where
  num_node_descriptor : Int
  max_num_nodes : Nat
  num_actions : Nat
  max_num_vars : Nat
  perturbation : Int
  action_space_n : Nat
  obs_node_nvec : Int
  obs_edges_rows : Nat
  obs_permitted_len : Nat
  obs_cursor_n : Nat
  obs_assignment_n : Nat
  code_per_assignment : List Nat
  assignment_dir : String
deriving Repr, DecidableEq

/-- The ctypes `State` structure (source lines 32-49), fields in source
order.  `edges` is viewed as the `(max_num_nodes * 3) × 3` row list produced
by `get_state`'s reshape, `args_in_scope` as the `max_num_vars × 2` row
list; `tests` flattens its `2 × max_num_tests` ints and `zast` its byte
buffer.  Counter fields are `c_int`, hence `Int`. -/
structure State where
  edges : List (Int × Int × Int)
  tests : List Int
  nodes : List Int
  starter : List Int
  permitted_actions : List Int
  vars_in_scope : List Int
  args_in_scope : List (Int × Int)
  zast : List Int
  cursor : Int
  num_nodes : Int
  num_edges : Int
  num_tests : Int
  num_vars : Int
  num_args : Int
  assignment : Int
  code : Int
deriving Repr, DecidableEq

/-- The observation dictionary built by `get_state` (source lines 126-140):
keys in source order. -/
structure Obs where
  nodes : List Int
  edges : List (Int × Int × Int)
  starter : List Int
  permitted_actions : List Int
  cursor_position : Int
  vars_in_scope : List Int
  args_in_scope : List (Int × Int)
  assignment : Int
deriving Repr, DecidableEq

/-- The native engine binding (`self.astclib`): the external library
`astclib.so` is not part of this repository, so its operations are opaque
parameters.  `take_action` and `init_assignment` receive the state by
reference and mutate it; modelled as returning the new state.  `check_ast`
returns the reward int. -/
structure EngineOps where
  take_action : State → Int → State
  check_ast : State → Int
  init_assignment : String → Nat → Int → Int → State

/-- One sentinel-writing loop of `pad_states`:
`for i in range(num, cap): arr[i] = w(arr[i])` where `w` overwrites the
marker position with `-1`.  Position `j` is rewritten iff `num ≤ j < cap`.
For `-len ≤ num < 0` this coincides with numpy semantics as well: Python's
`range(num, cap)` then covers all of `[0, cap)` plus negatively indexed
positions, which wrap into `[0, cap)` and are overwritten anyway. -/
def padLoopAux {α : Type} (w : α → α) (num : Int) (cap : Nat) : Nat → List α → List α
  | _, [] => []
  | j, v :: vs => (if num ≤ (j : Int) ∧ j < cap then w v else v) :: padLoopAux w num cap (j + 1) vs

/-- The sentinel-writing loop started at index 0 (as in the source). -/
def padLoop {α : Type} (w : α → α) (num : Int) (cap : Nat) (xs : List α) : List α :=
  padLoopAux w num cap 0 xs

/-- First index `i < n` with `p i`, scanning upward from 0: the
`for i in range(cap): if ...: break` pattern of `unpad_states`. -/
def loopFind (p : Nat → Bool) : Nat → Option Nat
  | 0 => none
  | n + 1 =>
    match loopFind p n with
    | some i => some i
    | none => if p n then some n else none

/-- One scanning loop of `unpad_states`: the first index `i < cap` whose
marker position `mark (xs[i])` equals the sentinel `-1`.  The observation
arrays always have length `cap`, so the default `d` is never read on
well-formed input. -/
def sentinelScan {α : Type} (mark : α → Int) (d : α) (cap : Nat) (xs : List α) : Option Nat :=
  loopFind (fun i => mark (xs.getD i d) == -1) cap

/-- Modelled from the spec: `gym.spaces.Discrete(n).sample()` — the gym
library is external to this repository; per the spec the draw is uniform on
`[0, n)`.  Modelled as reduction of a uniform source draw `r` modulo `n`. -/
def discreteSample (n : Nat) (r : Nat) : Nat := r % n

/-- Modelled from the spec: `random.randint(lo, hi)` — the Python standard
library is external to this repository; it returns a uniform integer of
`[lo, hi]`.  Modelled as `lo` plus a uniform source draw reduced modulo the
range size. -/
def randint (lo hi : Int) (r : Nat) : Int := lo + (r : Int) % (hi - lo + 1)

namespace ASTEnv

/-- `ASTEnv.__init__` (source lines 16-88).  The body contains no
conditional, assertion or raise statement: it stores the capacities, builds
the action and observation spaces and the engine handle, and returns.  It
performs no validation of the capacity schema. -/
def init (cfg : Config) : Env :=
  { num_node_descriptor := cfg.num_node_descriptor
    max_num_nodes := cfg.max_num_nodes
    num_actions := cfg.num_actions
    max_num_vars := cfg.max_num_vars
    perturbation := cfg.perturbation
    action_space_n := cfg.num_actions + cfg.max_num_vars
    obs_node_nvec := cfg.num_node_descriptor + cfg.max_num_vars + 1
    obs_edges_rows := cfg.max_num_nodes * 3
    obs_permitted_len := cfg.num_actions + cfg.max_num_vars * 2
    obs_cursor_n := cfg.max_num_nodes
    obs_assignment_n := cfg.num_assignments
    code_per_assignment := cfg.code_per_assignment
    assignment_dir := cfg.assignment_dir }

/-- The dictionary literal of `get_state` (source lines 127-138) before
`pad_states` runs.  In the source every array value is created with
`np.ctypeslib.as_array(self.state.<field>)`, which shares memory with the
ctypes buffer — the dict holds views, not copies. -/
def rawObs (st : State) : Obs :=
  { nodes := st.nodes
    edges := st.edges
    starter := st.starter
    permitted_actions := st.permitted_actions
    cursor_position := st.cursor
    vars_in_scope := st.vars_in_scope
    args_in_scope := st.args_in_scope
    assignment := st.assignment }

/-- `ASTEnv.pad_states` (source lines 142-156): four sentinel-writing loops
over the dict's arrays, driven by the engine counters `self.state.num_X`
and the capacities.  The first loop writes both `nodes[i]` and
`starter[i]`; the `edges` and `args_in_scope` loops write only the first
tuple component. -/
def pad_states (env : Env) (st : State) (obs : Obs) : Obs :=
  { obs with
    nodes := padLoop (fun _ => (-1 : Int)) st.num_nodes env.max_num_nodes obs.nodes
    starter := padLoop (fun _ => (-1 : Int)) st.num_nodes env.max_num_nodes obs.starter
    edges := padLoop (fun v => ((-1 : Int), v.2)) st.num_edges (env.max_num_nodes * 3) obs.edges
    vars_in_scope := padLoop (fun _ => (-1 : Int)) st.num_vars env.max_num_vars obs.vars_in_scope
    args_in_scope := padLoop (fun v => ((-1 : Int), v.2)) st.num_args env.max_num_vars obs.args_in_scope }

/-- `ASTEnv.get_state` (source lines 126-140).  Because the dict's arrays
are `np.ctypeslib.as_array` views sharing memory with `self.state`, the
in-place sentinel writes of `pad_states` also land in the engine's own
buffer: the result is the pair (engine state after those writes, returned
observation), and the two alias the same data. -/
def get_state (env : Env) (st : State) : State × Obs :=
  let obs := pad_states env st (rawObs st)
  ({ st with
      nodes := obs.nodes
      starter := obs.starter
      edges := obs.edges
      vars_in_scope := obs.vars_in_scope
      args_in_scope := obs.args_in_scope }, obs)

/-- `ASTEnv.unpad_states` (source lines 158-180): four scanning loops; the
first truncates both `nodes` and `starter` at the first sentinel found in
`nodes`; the other three truncate their own field at the first sentinel in
its marker position.  A field with no sentinel within capacity is left
untouched. -/
def unpad_states (env : Env) (obs : Obs) : Obs :=
  let obs1 :=
    match sentinelScan id (0 : Int) env.max_num_nodes obs.nodes with
    | some i => { obs with nodes := obs.nodes.take i, starter := obs.starter.take i }
    | none => obs
  let obs2 :=
    match sentinelScan Prod.fst ((0 : Int), (0 : Int), (0 : Int)) (env.max_num_nodes * 3) obs1.edges with
    | some i => { obs1 with edges := obs1.edges.take i }
    | none => obs1
  let obs3 :=
    match sentinelScan id (0 : Int) env.max_num_vars obs2.vars_in_scope with
    | some i => { obs2 with vars_in_scope := obs2.vars_in_scope.take i }
    | none => obs2
  match sentinelScan Prod.fst ((0 : Int), (0 : Int)) env.max_num_vars obs3.args_in_scope with
  | some i => { obs3 with args_in_scope := obs3.args_in_scope.take i }
  | none => obs3

/-- `ASTEnv.step` (source lines 90-101): apply the action through the
engine, compute the reward with `check_ast`, set `done` exactly when the
reward is 1, convert the (shared) state to the observation dict via
`get_state`, and return `(state_dict, reward, done, {})`.  The empty info
dict is modelled as the empty association list.  The `State` component of
the result is the engine buffer afterwards (mutated by `take_action` and by
`get_state`'s aliased sentinel writes). -/
def step (env : Env) (ops : EngineOps) (st : State) (action : Int) :
    State × (Obs × Int × Bool × List (String × Int)) :=
  let st1 := ops.take_action st action
  let reward := ops.check_ast st1
  let done := reward == 1
  let p := get_state env st1
  (p.1, (p.2, reward, done, []))

/-- `ASTEnv.reset` (source lines 103-116): sample an assignment from the
`Discrete(num_assignments)` observation subspace and a code variant with
`random.randint(0, code_per_assignment[assignment] - 1)`, allocate a fresh
`State()` and have the engine populate it via `init_assignment` with the
configured directory and perturbation, then return `get_state()`.  The two
library draws are passed in as uniform source draws `r1`, `r2` consumed by
the spec-modelled `discreteSample` and `randint`. -/
def reset (env : Env) (ops : EngineOps) (r1 r2 : Nat) : State × Obs :=
  let assignment := discreteSample env.obs_assignment_n r1
  let code := randint 0 ((env.code_per_assignment.getD assignment 0 : Int) - 1) r2
  let st := ops.init_assignment env.assignment_dir assignment code env.perturbation
  get_state env st

end ASTEnv

/-- Truncation selected by a scan result: `xs[:i]` when a sentinel was found
at `i`, the whole list otherwise. -/
def truncAt {α : Type} (r : Option Nat) (xs : List α) : List α :=
  match r with
  | some i => xs.take i
  | none => xs

/-- Shape of the fixed-capacity ctypes arrays of a raw `State`, as the
ctypes declaration of `State._fields_` guarantees it (with `edges` and
`args_in_scope` in their reshaped row counts). -/
def State.wfShape (env : Env) (st : State) : Prop :=
  st.nodes.length = env.max_num_nodes ∧
  st.starter.length = env.max_num_nodes ∧
  st.edges.length = env.max_num_nodes * 3 ∧
  st.vars_in_scope.length = env.max_num_vars ∧
  st.args_in_scope.length = env.max_num_vars ∧
  st.permitted_actions.length = env.num_actions + env.max_num_vars * 2

/-- Small concrete configuration used to instantiate universally quantified
theorems (capacities 2 nodes, 1 variable, 1 action, 1 assignment). -/
def cfgEx : Config :=
  { max_num_nodes := 2
    num_node_descriptor := 4
    num_assignments := 1
    code_per_assignment := [1]
    num_actions := 1
    assignment_dir := "assignments"
    perturbation := 0
    max_num_tests := 1
    max_tree_length := 8
    max_num_vars := 1
    seed := 0 }

/-- The environment constructed from `cfgEx`. -/
def envEx : Env := ASTEnv.init cfgEx

/-- A concrete raw engine state matching `envEx`'s capacities: one live
node, one live edge, no live variable, one live argument pair; the second
`nodes` entry holds tail garbage `7`. -/
def stEx : State :=
  { edges := [(0, 1, 0), (7, 7, 7), (3, 3, 3), (4, 4, 4), (5, 5, 5), (6, 6, 6)]
    tests := [0, 0]
    nodes := [5, 7]
    starter := [5, 6]
    permitted_actions := [1, 0, 1]
    vars_in_scope := [0]
    args_in_scope := [(0, 1)]
    zast := []
    cursor := 0
    num_nodes := 1
    num_edges := 1
    num_tests := 1
    num_vars := 0
    num_args := 1
    assignment := 0
    code := 0 }

/-- A concrete engine-operation record: `take_action` leaves the state
unchanged, `check_ast` always reports success, `init_assignment` always
produces `stEx`. -/
def opsEx : EngineOps :=
  { take_action := fun st _ => st
    check_ast := fun _ => 1
    init_assignment := fun _ _ _ _ => stEx }

/-- An engine-operation record in which every engine call returns the
fixed-shape state `stEx`, as the ctypes struct layout guarantees for the
real binding. -/
def opsConstEx : EngineOps :=
  { take_action := fun _ _ => stEx
    check_ast := fun _ => 0
    init_assignment := fun _ _ _ _ => stEx }

/-- A configuration whose capacities are the source defaults
(`max_num_vars = 10`) combined with `max_num_nodes = 5`, so that
`max_num_vars > max_num_nodes`. -/
def cfgBad : Config :=
  { max_num_nodes := 5
    num_node_descriptor := 10
    num_assignments := 1
    code_per_assignment := [1]
    num_actions := 10
    assignment_dir := "assignments" }

example : padLoop (fun _ => (-1 : Int)) 2 4 [5, 6, 7, 8] = [5, 6, -1, -1] := by decide

example : sentinelScan id (0 : Int) 4 [5, 6, -1, -1] = some 2 := by decide

example : sentinelScan id (0 : Int) 4 [5, 6, 7, 8] = none := by decide

theorem length_padLoopAux {α : Type} (w : α → α) (num : Int) (cap : Nat) (j : Nat)
    (xs : List α) : (padLoopAux w num cap j xs).length = xs.length := by
  induction xs generalizing j with
  | nil => rfl
  | cons v vs ih => simp [padLoopAux, ih]

theorem length_padLoop {α : Type} (w : α → α) (num : Int) (cap : Nat) (xs : List α) :
    (padLoop w num cap xs).length = xs.length :=
  length_padLoopAux w num cap 0 xs

theorem getD_padLoopAux {α : Type} (w : α → α) (num : Int) (cap : Nat) (j i : Nat)
    (xs : List α) (d : α) :
    (padLoopAux w num cap j xs).getD i d =
      if i < xs.length ∧ num ≤ ((j + i : Nat) : Int) ∧ j + i < cap then w (xs.getD i d)
      else xs.getD i d := by
  induction xs generalizing j i with
  | nil => simp [padLoopAux]
  | cons v vs ih =>
    cases i with
    | zero =>
      simp only [padLoopAux, List.getD_cons_zero, List.length_cons, Nat.add_zero]
      have h0 : (0 : Nat) < vs.length + 1 := Nat.succ_pos _
      simp [h0]
    | succ m =>
      simp only [padLoopAux, List.getD_cons_succ, List.length_cons]
      rw [ih]
      have h1 : j + 1 + m = j + (m + 1) := by omega
      rw [h1]
      simp [Nat.succ_lt_succ_iff]

theorem getD_padLoop {α : Type} (w : α → α) (num : Int) (cap : Nat) (i : Nat)
    (xs : List α) (d : α) :
    (padLoop w num cap xs).getD i d =
      if i < xs.length ∧ num ≤ (i : Int) ∧ i < cap then w (xs.getD i d)
      else xs.getD i d := by
  have h := getD_padLoopAux w num cap 0 i xs d
  simpa using h

theorem take_padLoopAux {α : Type} (w : α → α) (num : Int) (cap : Nat) (j k : Nat)
    (xs : List α) (h : ((j + k : Nat) : Int) ≤ num) :
    (padLoopAux w num cap j xs).take k = xs.take k := by
  induction xs generalizing j k with
  | nil => simp [padLoopAux]
  | cons v vs ih =>
    cases k with
    | zero => simp
    | succ m =>
      simp only [padLoopAux, List.take_succ_cons]
      have hj : ¬(num ≤ (j : Int) ∧ j < cap) := by
        intro hc
        have hjm : ((j + (m + 1) : Nat) : Int) ≤ num := h
        push_cast at hjm
        omega
      rw [if_neg hj, ih]
      push_cast
      push_cast at h
      omega

theorem take_padLoop {α : Type} (w : α → α) (num : Int) (cap : Nat)
    (xs : List α) (h0 : 0 ≤ num) :
    (padLoop w num cap xs).take num.toNat = xs.take num.toNat := by
  apply take_padLoopAux
  simp [Int.toNat_of_nonneg h0]

theorem padLoopAux_of_cap_le {α : Type} (w : α → α) (num : Int) (cap : Nat) (j : Nat)
    (xs : List α) (hc : (cap : Int) ≤ num) :
    padLoopAux w num cap j xs = xs := by
  induction xs generalizing j with
  | nil => rfl
  | cons v vs ih =>
    have hj : ¬(num ≤ (j : Int) ∧ j < cap) := by
      intro hcond
      have h1 := hcond.1
      have h2 : ((j : Nat) : Int) < (cap : Int) := by exact_mod_cast hcond.2
      omega
    simp [padLoopAux, hj, ih]

theorem padLoop_of_cap_le {α : Type} (w : α → α) (num : Int) (cap : Nat)
    (xs : List α) (hc : (cap : Int) ≤ num) :
    padLoop w num cap xs = xs :=
  padLoopAux_of_cap_le w num cap 0 xs hc

theorem loopFind_eq_none (p : Nat → Bool) (n : Nat) (h : ∀ i, i < n → p i = false) :
    loopFind p n = none := by
  induction n with
  | zero => rfl
  | succ n ih =>
    have hn := ih fun i hi => h i (Nat.lt_succ_of_lt hi)
    simp [loopFind, hn, h n (Nat.lt_succ_self n)]

theorem loopFind_none_imp (p : Nat → Bool) (n : Nat) (h : loopFind p n = none) :
    ∀ i, i < n → p i = false := by
  induction n with
  | zero => intro i hi; exact absurd hi (Nat.not_lt_zero i)
  | succ n ih =>
    intro i hi
    cases hfn : loopFind p n with
    | some k => rw [loopFind, hfn] at h; exact absurd h (by simp)
    | none =>
      rw [loopFind, hfn] at h
      by_cases hp : p n
      · simp [hp] at h
      · rcases Nat.lt_succ_iff_lt_or_eq.mp hi with h1 | h1
        · exact ih hfn i h1
        · subst h1; simpa using hp

theorem loopFind_eq_some (p : Nat → Bool) (n i : Nat) (h1 : i < n) (h2 : p i = true)
    (h3 : ∀ j, j < i → p j = false) : loopFind p n = some i := by
  induction n with
  | zero => exact absurd h1 (Nat.not_lt_zero i)
  | succ n ih =>
    rcases Nat.lt_succ_iff_lt_or_eq.mp h1 with hlt | heq
    · rw [loopFind, ih hlt]
    · subst heq
      rw [loopFind, loopFind_eq_none p i h3]
      simp [h2]

theorem sentinelScan_eq_none {α : Type} (mark : α → Int) (d : α) (cap : Nat) (xs : List α)
    (h : ∀ i, i < cap → mark (xs.getD i d) ≠ -1) :
    sentinelScan mark d cap xs = none := by
  apply loopFind_eq_none
  intro i hi
  simpa using h i hi

theorem sentinelScan_eq_some {α : Type} (mark : α → Int) (d : α) (cap : Nat) (xs : List α)
    (i : Nat) (h1 : i < cap) (h2 : mark (xs.getD i d) = -1)
    (h3 : ∀ j, j < i → mark (xs.getD j d) ≠ -1) :
    sentinelScan mark d cap xs = some i := by
  apply loopFind_eq_some
  · exact h1
  · simpa using h2
  · intro j hj; simpa using h3 j hj

/-- The scan result on an array padded from count `num` at capacity `cap`:
the first sentinel sits exactly at `num` when `num < cap`, and there is no
sentinel when `num = cap`, provided all live marker entries differ from
`-1`. -/
theorem sentinelScan_padLoop {α : Type} (mark : α → Int) (w : α → α) (d : α)
    (num : Int) (cap : Nat) (xs : List α)
    (hw : ∀ v, mark (w v) = -1)
    (hlen : xs.length = cap)
    (h0 : 0 ≤ num) (hle : num ≤ (cap : Int))
    (hlive : ∀ i : Nat, (i : Int) < num → mark (xs.getD i d) ≠ -1) :
    sentinelScan mark d cap (padLoop w num cap xs) =
      if num < (cap : Int) then some num.toNat else none := by
  by_cases hcase : num < (cap : Int)
  · rw [if_pos hcase]
    apply sentinelScan_eq_some
    · omega
    · rw [getD_padLoop, if_pos, hw]
      refine ⟨by omega, by omega, by omega⟩
    · intro j hj
      have hjnum : (j : Int) < num := by omega
      rw [getD_padLoop, if_neg]
      · exact hlive j hjnum
      · intro hc
        have := hc.2.1
        omega
  · rw [if_neg hcase]
    apply sentinelScan_eq_none
    intro i hi
    have hinum : (i : Int) < num := by omega
    rw [getD_padLoop, if_neg]
    · exact hlive i hinum
    · intro hc
      have := hc.2.1
      omega

/-- Round trip on one field pair: scanning an array padded from count `num`
and truncating a second array (padded with the same bounds) at the found
boundary recovers the second array's live prefix.  Instantiated with
`ys = xs` for the fields that are truncated at their own sentinel. -/
theorem truncAt_scan_pad2 {α β : Type} (mark : α → Int) (w : α → α) (w2 : β → β) (d : α)
    (num : Int) (cap : Nat) (xs : List α) (ys : List β)
    (hw : ∀ v, mark (w v) = -1) (hlenx : xs.length = cap) (hleny : ys.length = cap)
    (h0 : 0 ≤ num) (hle : num ≤ (cap : Int))
    (hlive : ∀ i : Nat, (i : Int) < num → mark (xs.getD i d) ≠ -1) :
    truncAt (sentinelScan mark d cap (padLoop w num cap xs)) (padLoop w2 num cap ys)
      = ys.take num.toNat := by
  rw [sentinelScan_padLoop mark w d num cap xs hw hlenx h0 hle hlive]
  by_cases h : num < (cap : Int)
  · rw [if_pos h]
    show (padLoop w2 num cap ys).take num.toNat = ys.take num.toNat
    exact take_padLoop w2 num cap ys h0
  · rw [if_neg h]
    show padLoop w2 num cap ys = ys.take num.toNat
    have hnum : num = (cap : Int) := le_antisymm hle (not_lt.mp h)
    rw [padLoop_of_cap_le w2 num cap ys (le_of_eq hnum.symm)]
    have htn : num.toNat = cap := by omega
    rw [htn, ← hleny, List.take_length]

/-- Unfolding of `unpad_states` as four independent truncations: the
boundary of `nodes` and `starter` is computed from `nodes` alone, and each
other field's boundary from its own marker positions. -/
theorem unpad_states_eq (env : Env) (obs : Obs) :
    ASTEnv.unpad_states env obs =
      { obs with
        nodes := truncAt (sentinelScan id (0 : Int) env.max_num_nodes obs.nodes) obs.nodes
        starter := truncAt (sentinelScan id (0 : Int) env.max_num_nodes obs.nodes) obs.starter
        edges := truncAt
          (sentinelScan Prod.fst ((0 : Int), (0 : Int), (0 : Int)) (env.max_num_nodes * 3) obs.edges)
          obs.edges
        vars_in_scope := truncAt
          (sentinelScan id (0 : Int) env.max_num_vars obs.vars_in_scope) obs.vars_in_scope
        args_in_scope := truncAt
          (sentinelScan Prod.fst ((0 : Int), (0 : Int)) env.max_num_vars obs.args_in_scope)
          obs.args_in_scope } := by
  unfold ASTEnv.unpad_states truncAt
  cases h1 : sentinelScan id (0 : Int) env.max_num_nodes obs.nodes <;>
    cases h2 : sentinelScan Prod.fst ((0 : Int), (0 : Int), (0 : Int))
      (env.max_num_nodes * 3) obs.edges <;>
    cases h3 : sentinelScan id (0 : Int) env.max_num_vars obs.vars_in_scope <;>
    cases h4 : sentinelScan Prod.fst ((0 : Int), (0 : Int)) env.max_num_vars
      obs.args_in_scope <;>
    simp_all

/-- C1: for every raw state satisfying invariant I1 (each count within
`[0, capacity]` and all live entries in marker positions non-negative),
applying `unpad_states` to the observation produced by `pad_states` yields
exactly the live-length slices: the first `num_nodes` entries of `nodes`
and `starter`, the first `num_edges` entries of `edges`, the first
`num_vars` entries of `vars_in_scope`, and the first `num_args` entries of
`args_in_scope`, with sentinel tails removed. -/
theorem round_trip_unpad_pad (env : Env) (st : State)
    (hsh : State.wfShape env st)
    (hn0 : 0 ≤ st.num_nodes) (hn1 : st.num_nodes ≤ (env.max_num_nodes : Int))
    (he0 : 0 ≤ st.num_edges) (he1 : st.num_edges ≤ ((env.max_num_nodes * 3 : Nat) : Int))
    (hv0 : 0 ≤ st.num_vars) (hv1 : st.num_vars ≤ (env.max_num_vars : Int))
    (ha0 : 0 ≤ st.num_args) (ha1 : st.num_args ≤ (env.max_num_vars : Int))
    (hlive_nodes : ∀ i : Nat, (i : Int) < st.num_nodes → 0 ≤ st.nodes.getD i 0)
    (hlive_edges : ∀ i : Nat, (i : Int) < st.num_edges → 0 ≤ (st.edges.getD i (0, 0, 0)).1)
    (hlive_vars : ∀ i : Nat, (i : Int) < st.num_vars → 0 ≤ st.vars_in_scope.getD i 0)
    (hlive_args : ∀ i : Nat, (i : Int) < st.num_args → 0 ≤ (st.args_in_scope.getD i (0, 0)).1) :
    (ASTEnv.unpad_states env (ASTEnv.pad_states env st (ASTEnv.rawObs st))).nodes
        = st.nodes.take st.num_nodes.toNat ∧
      (ASTEnv.unpad_states env (ASTEnv.pad_states env st (ASTEnv.rawObs st))).starter
        = st.starter.take st.num_nodes.toNat ∧
      (ASTEnv.unpad_states env (ASTEnv.pad_states env st (ASTEnv.rawObs st))).edges
        = st.edges.take st.num_edges.toNat ∧
      (ASTEnv.unpad_states env (ASTEnv.pad_states env st (ASTEnv.rawObs st))).vars_in_scope
        = st.vars_in_scope.take st.num_vars.toNat ∧
      (ASTEnv.unpad_states env (ASTEnv.pad_states env st (ASTEnv.rawObs st))).args_in_scope
        = st.args_in_scope.take st.num_args.toNat := by
  obtain ⟨hs1, hs2, hs3, hs4, hs5, hs6⟩ := hsh
  have hlive_nodes2 : ∀ i : Nat, (i : Int) < st.num_nodes → id (st.nodes.getD i 0) ≠ -1 := by
    intro i hi
    have := hlive_nodes i hi
    simp only [id]
    omega
  have hlive_edges2 : ∀ i : Nat, (i : Int) < st.num_edges →
      (st.edges.getD i (0, 0, 0)).1 ≠ -1 := by
    intro i hi
    have := hlive_edges i hi
    omega
  have hlive_vars2 : ∀ i : Nat, (i : Int) < st.num_vars →
      id (st.vars_in_scope.getD i 0) ≠ -1 := by
    intro i hi
    have := hlive_vars i hi
    simp only [id]
    omega
  have hlive_args2 : ∀ i : Nat, (i : Int) < st.num_args →
      (st.args_in_scope.getD i (0, 0)).1 ≠ -1 := by
    intro i hi
    have := hlive_args i hi
    omega
  rw [unpad_states_eq]
  refine ⟨?_, ?_, ?_, ?_, ?_⟩
  · show truncAt (sentinelScan id (0 : Int) env.max_num_nodes
        (padLoop (fun _ => (-1 : Int)) st.num_nodes env.max_num_nodes st.nodes))
        (padLoop (fun _ => (-1 : Int)) st.num_nodes env.max_num_nodes st.nodes)
      = st.nodes.take st.num_nodes.toNat
    exact truncAt_scan_pad2 id (fun _ => (-1 : Int)) (fun _ => (-1 : Int)) 0
      st.num_nodes env.max_num_nodes st.nodes st.nodes (fun v => rfl) hs1 hs1 hn0 hn1
      hlive_nodes2
  · show truncAt (sentinelScan id (0 : Int) env.max_num_nodes
        (padLoop (fun _ => (-1 : Int)) st.num_nodes env.max_num_nodes st.nodes))
        (padLoop (fun _ => (-1 : Int)) st.num_nodes env.max_num_nodes st.starter)
      = st.starter.take st.num_nodes.toNat
    exact truncAt_scan_pad2 id (fun _ => (-1 : Int)) (fun _ => (-1 : Int)) 0
      st.num_nodes env.max_num_nodes st.nodes st.starter (fun v => rfl) hs1 hs2 hn0 hn1
      hlive_nodes2
  · show truncAt (sentinelScan Prod.fst ((0 : Int), (0 : Int), (0 : Int)) (env.max_num_nodes * 3)
        (padLoop (fun v => ((-1 : Int), v.2)) st.num_edges (env.max_num_nodes * 3) st.edges))
        (padLoop (fun v => ((-1 : Int), v.2)) st.num_edges (env.max_num_nodes * 3) st.edges)
      = st.edges.take st.num_edges.toNat
    exact truncAt_scan_pad2 Prod.fst (fun v => ((-1 : Int), v.2)) (fun v => ((-1 : Int), v.2))
      (0, 0, 0) st.num_edges (env.max_num_nodes * 3) st.edges st.edges (fun v => rfl)
      hs3 hs3 he0 he1 hlive_edges2
  · show truncAt (sentinelScan id (0 : Int) env.max_num_vars
        (padLoop (fun _ => (-1 : Int)) st.num_vars env.max_num_vars st.vars_in_scope))
        (padLoop (fun _ => (-1 : Int)) st.num_vars env.max_num_vars st.vars_in_scope)
      = st.vars_in_scope.take st.num_vars.toNat
    exact truncAt_scan_pad2 id (fun _ => (-1 : Int)) (fun _ => (-1 : Int)) 0
      st.num_vars env.max_num_vars st.vars_in_scope st.vars_in_scope (fun v => rfl)
      hs4 hs4 hv0 hv1 hlive_vars2
  · show truncAt (sentinelScan Prod.fst ((0 : Int), (0 : Int)) env.max_num_vars
        (padLoop (fun v => ((-1 : Int), v.2)) st.num_args env.max_num_vars st.args_in_scope))
        (padLoop (fun v => ((-1 : Int), v.2)) st.num_args env.max_num_vars st.args_in_scope)
      = st.args_in_scope.take st.num_args.toNat
    exact truncAt_scan_pad2 Prod.fst (fun v => ((-1 : Int), v.2)) (fun v => ((-1 : Int), v.2))
      (0, 0) st.num_args env.max_num_vars st.args_in_scope st.args_in_scope (fun v => rfl)
      hs5 hs5 ha0 ha1 hlive_args2

/-- Witness for C1 at the concrete environment `envEx` and state `stEx`. -/
theorem round_trip_unpad_pad_witness :
    (ASTEnv.unpad_states envEx (ASTEnv.pad_states envEx stEx (ASTEnv.rawObs stEx))).nodes
        = stEx.nodes.take stEx.num_nodes.toNat ∧
      (ASTEnv.unpad_states envEx (ASTEnv.pad_states envEx stEx (ASTEnv.rawObs stEx))).starter
        = stEx.starter.take stEx.num_nodes.toNat ∧
      (ASTEnv.unpad_states envEx (ASTEnv.pad_states envEx stEx (ASTEnv.rawObs stEx))).edges
        = stEx.edges.take stEx.num_edges.toNat ∧
      (ASTEnv.unpad_states envEx (ASTEnv.pad_states envEx stEx (ASTEnv.rawObs stEx))).vars_in_scope
        = stEx.vars_in_scope.take stEx.num_vars.toNat ∧
      (ASTEnv.unpad_states envEx (ASTEnv.pad_states envEx stEx (ASTEnv.rawObs stEx))).args_in_scope
        = stEx.args_in_scope.take stEx.num_args.toNat :=
  round_trip_unpad_pad envEx stEx
    ⟨by decide, by decide, by decide, by decide, by decide, by decide⟩
    (by decide) (by decide) (by decide) (by decide)
    (by decide) (by decide) (by decide) (by decide)
    (by intro i hi; have hi2 : (i : Int) < 1 := hi; have h : i = 0 := (by omega); subst h; decide)
    (by intro i hi; have hi2 : (i : Int) < 1 := hi; have h : i = 0 := (by omega); subst h; decide)
    (by intro i hi; have hi2 : (i : Int) < 0 := hi; exact absurd hi2 (by omega))
    (by intro i hi; have hi2 : (i : Int) < 1 := hi; have h : i = 0 := (by omega); subst h; decide)

/-- C2: for every raw state with counts within capacity, `pad_states` sets
`nodes[i] = -1` and `starter[i] = -1` for every `i` in
`[num_nodes, max_num_nodes)`, `edges[i][0] = -1` for every `i` in
`[num_edges, 3*max_num_nodes)`, `vars_in_scope[i] = -1` for every `i` in
`[num_vars, max_num_vars)`, and `args_in_scope[i][0] = -1` for every `i`
in `[num_args, max_num_vars)`, while every position below the
corresponding count keeps its original value. -/
theorem pad_states_sentinels (env : Env) (st : State) (obs : Obs)
    (hlnodes : obs.nodes.length = env.max_num_nodes)
    (hlstarter : obs.starter.length = env.max_num_nodes)
    (hledges : obs.edges.length = env.max_num_nodes * 3)
    (hlvars : obs.vars_in_scope.length = env.max_num_vars)
    (hlargs : obs.args_in_scope.length = env.max_num_vars)
    (hn0 : 0 ≤ st.num_nodes) (hn1 : st.num_nodes ≤ (env.max_num_nodes : Int))
    (he0 : 0 ≤ st.num_edges) (he1 : st.num_edges ≤ ((env.max_num_nodes * 3 : Nat) : Int))
    (hv0 : 0 ≤ st.num_vars) (hv1 : st.num_vars ≤ (env.max_num_vars : Int))
    (ha0 : 0 ≤ st.num_args) (ha1 : st.num_args ≤ (env.max_num_vars : Int)) :
    (∀ i : Nat, st.num_nodes ≤ (i : Int) → i < env.max_num_nodes →
      (ASTEnv.pad_states env st obs).nodes.getD i 0 = -1 ∧
      (ASTEnv.pad_states env st obs).starter.getD i 0 = -1) ∧
    (∀ i : Nat, (i : Int) < st.num_nodes →
      (ASTEnv.pad_states env st obs).nodes.getD i 0 = obs.nodes.getD i 0 ∧
      (ASTEnv.pad_states env st obs).starter.getD i 0 = obs.starter.getD i 0) ∧
    (∀ i : Nat, st.num_edges ≤ (i : Int) → i < env.max_num_nodes * 3 →
      ((ASTEnv.pad_states env st obs).edges.getD i (0, 0, 0)).1 = -1) ∧
    (∀ i : Nat, (i : Int) < st.num_edges →
      (ASTEnv.pad_states env st obs).edges.getD i (0, 0, 0) = obs.edges.getD i (0, 0, 0)) ∧
    (∀ i : Nat, st.num_vars ≤ (i : Int) → i < env.max_num_vars →
      (ASTEnv.pad_states env st obs).vars_in_scope.getD i 0 = -1) ∧
    (∀ i : Nat, (i : Int) < st.num_vars →
      (ASTEnv.pad_states env st obs).vars_in_scope.getD i 0 = obs.vars_in_scope.getD i 0) ∧
    (∀ i : Nat, st.num_args ≤ (i : Int) → i < env.max_num_vars →
      ((ASTEnv.pad_states env st obs).args_in_scope.getD i (0, 0)).1 = -1) ∧
    (∀ i : Nat, (i : Int) < st.num_args →
      (ASTEnv.pad_states env st obs).args_in_scope.getD i (0, 0) = obs.args_in_scope.getD i (0, 0)) := by
  simp only [ASTEnv.pad_states]
  refine ⟨?_, ?_, ?_, ?_, ?_, ?_, ?_, ?_⟩
  · intro i h1 h2
    constructor
    · rw [getD_padLoop, if_pos ⟨by omega, h1, h2⟩]
    · rw [getD_padLoop, if_pos ⟨by omega, h1, h2⟩]
  · intro i h1
    constructor
    · rw [getD_padLoop, if_neg (by intro hc; omega)]
    · rw [getD_padLoop, if_neg (by intro hc; omega)]
  · intro i h1 h2
    rw [getD_padLoop, if_pos ⟨by omega, h1, h2⟩]
  · intro i h1
    rw [getD_padLoop, if_neg (by intro hc; omega)]
  · intro i h1 h2
    rw [getD_padLoop, if_pos ⟨by omega, h1, h2⟩]
  · intro i h1
    rw [getD_padLoop, if_neg (by intro hc; omega)]
  · intro i h1 h2
    rw [getD_padLoop, if_pos ⟨by omega, h1, h2⟩]
  · intro i h1
    rw [getD_padLoop, if_neg (by intro hc; omega)]

/-- Witness for C2 at `envEx`, `stEx` and the dict built from `stEx`. -/
theorem pad_states_sentinels_witness :
    (∀ i : Nat, stEx.num_nodes ≤ (i : Int) → i < envEx.max_num_nodes →
      (ASTEnv.pad_states envEx stEx (ASTEnv.rawObs stEx)).nodes.getD i 0 = -1 ∧
      (ASTEnv.pad_states envEx stEx (ASTEnv.rawObs stEx)).starter.getD i 0 = -1) ∧
    (∀ i : Nat, (i : Int) < stEx.num_nodes →
      (ASTEnv.pad_states envEx stEx (ASTEnv.rawObs stEx)).nodes.getD i 0
        = (ASTEnv.rawObs stEx).nodes.getD i 0 ∧
      (ASTEnv.pad_states envEx stEx (ASTEnv.rawObs stEx)).starter.getD i 0
        = (ASTEnv.rawObs stEx).starter.getD i 0) ∧
    (∀ i : Nat, stEx.num_edges ≤ (i : Int) → i < envEx.max_num_nodes * 3 →
      ((ASTEnv.pad_states envEx stEx (ASTEnv.rawObs stEx)).edges.getD i (0, 0, 0)).1 = -1) ∧
    (∀ i : Nat, (i : Int) < stEx.num_edges →
      (ASTEnv.pad_states envEx stEx (ASTEnv.rawObs stEx)).edges.getD i (0, 0, 0)
        = (ASTEnv.rawObs stEx).edges.getD i (0, 0, 0)) ∧
    (∀ i : Nat, stEx.num_vars ≤ (i : Int) → i < envEx.max_num_vars →
      (ASTEnv.pad_states envEx stEx (ASTEnv.rawObs stEx)).vars_in_scope.getD i 0 = -1) ∧
    (∀ i : Nat, (i : Int) < stEx.num_vars →
      (ASTEnv.pad_states envEx stEx (ASTEnv.rawObs stEx)).vars_in_scope.getD i 0
        = (ASTEnv.rawObs stEx).vars_in_scope.getD i 0) ∧
    (∀ i : Nat, stEx.num_args ≤ (i : Int) → i < envEx.max_num_vars →
      ((ASTEnv.pad_states envEx stEx (ASTEnv.rawObs stEx)).args_in_scope.getD i (0, 0)).1 = -1) ∧
    (∀ i : Nat, (i : Int) < stEx.num_args →
      (ASTEnv.pad_states envEx stEx (ASTEnv.rawObs stEx)).args_in_scope.getD i (0, 0)
        = (ASTEnv.rawObs stEx).args_in_scope.getD i (0, 0)) :=
  pad_states_sentinels envEx stEx (ASTEnv.rawObs stEx)
    (by decide) (by decide) (by decide) (by decide) (by decide)
    (by decide) (by decide) (by decide) (by decide)
    (by decide) (by decide) (by decide) (by decide)

theorem padLoopAux_idem {α : Type} (w : α → α) (num : Int) (cap : Nat) (j : Nat)
    (xs : List α) (hw : ∀ v, w (w v) = w v) :
    padLoopAux w num cap j (padLoopAux w num cap j xs) = padLoopAux w num cap j xs := by
  induction xs generalizing j with
  | nil => rfl
  | cons v vs ih =>
    by_cases hc : num ≤ (j : Int) ∧ j < cap <;> simp [padLoopAux, hc, hw, ih]

theorem padLoop_idem {α : Type} (w : α → α) (num : Int) (cap : Nat)
    (xs : List α) (hw : ∀ v, w (w v) = w v) :
    padLoop w num cap (padLoop w num cap xs) = padLoop w num cap xs :=
  padLoopAux_idem w num cap 0 xs hw

/-- C3 counterexample: encoding is not side-effect-free on the engine's raw
buffer.  The observation arrays are `np.ctypeslib.as_array` views of
`self.state`, so the sentinel writes of `pad_states` land in the engine
buffer itself: at `stEx` (whose `nodes` tail holds the garbage value `7`),
`get_state` changes the buffer's `nodes` array. -/
theorem get_state_mutates_engine_buffer :
    (ASTEnv.get_state envEx stEx).1.nodes ≠ stEx.nodes := by decide

/-- C3 amended: `get_state`/`pad_states` leave the count fields, the scalar
fields and every live array entry of the engine state unchanged, but they
overwrite the tail positions (at and beyond each count) of the engine's own
buffer with sentinel `-1`, and the returned observation shares (aliases)
the engine buffer's arrays rather than holding independent copies. -/
theorem get_state_frame (env : Env) (st : State) (hsh : State.wfShape env st) :
    ((ASTEnv.get_state env st).1.num_nodes = st.num_nodes ∧
      (ASTEnv.get_state env st).1.num_edges = st.num_edges ∧
      (ASTEnv.get_state env st).1.num_vars = st.num_vars ∧
      (ASTEnv.get_state env st).1.num_args = st.num_args ∧
      (ASTEnv.get_state env st).1.num_tests = st.num_tests ∧
      (ASTEnv.get_state env st).1.cursor = st.cursor ∧
      (ASTEnv.get_state env st).1.assignment = st.assignment ∧
      (ASTEnv.get_state env st).1.code = st.code ∧
      (ASTEnv.get_state env st).1.permitted_actions = st.permitted_actions ∧
      (ASTEnv.get_state env st).1.tests = st.tests ∧
      (ASTEnv.get_state env st).1.zast = st.zast) ∧
    (∀ i : Nat, (i : Int) < st.num_nodes →
      (ASTEnv.get_state env st).1.nodes.getD i 0 = st.nodes.getD i 0 ∧
      (ASTEnv.get_state env st).1.starter.getD i 0 = st.starter.getD i 0) ∧
    (∀ i : Nat, (i : Int) < st.num_edges →
      (ASTEnv.get_state env st).1.edges.getD i (0, 0, 0) = st.edges.getD i (0, 0, 0)) ∧
    (∀ i : Nat, (i : Int) < st.num_vars →
      (ASTEnv.get_state env st).1.vars_in_scope.getD i 0 = st.vars_in_scope.getD i 0) ∧
    (∀ i : Nat, (i : Int) < st.num_args →
      (ASTEnv.get_state env st).1.args_in_scope.getD i (0, 0) = st.args_in_scope.getD i (0, 0)) ∧
    (∀ i : Nat, st.num_nodes ≤ (i : Int) → i < env.max_num_nodes →
      (ASTEnv.get_state env st).1.nodes.getD i 0 = -1 ∧
      (ASTEnv.get_state env st).1.starter.getD i 0 = -1) ∧
    (∀ i : Nat, st.num_edges ≤ (i : Int) → i < env.max_num_nodes * 3 →
      ((ASTEnv.get_state env st).1.edges.getD i (0, 0, 0)).1 = -1) ∧
    (∀ i : Nat, st.num_vars ≤ (i : Int) → i < env.max_num_vars →
      (ASTEnv.get_state env st).1.vars_in_scope.getD i 0 = -1) ∧
    (∀ i : Nat, st.num_args ≤ (i : Int) → i < env.max_num_vars →
      ((ASTEnv.get_state env st).1.args_in_scope.getD i (0, 0)).1 = -1) ∧
    ((ASTEnv.get_state env st).2.nodes = (ASTEnv.get_state env st).1.nodes ∧
      (ASTEnv.get_state env st).2.starter = (ASTEnv.get_state env st).1.starter ∧
      (ASTEnv.get_state env st).2.edges = (ASTEnv.get_state env st).1.edges ∧
      (ASTEnv.get_state env st).2.vars_in_scope = (ASTEnv.get_state env st).1.vars_in_scope ∧
      (ASTEnv.get_state env st).2.args_in_scope = (ASTEnv.get_state env st).1.args_in_scope) := by
  obtain ⟨hs1, hs2, hs3, hs4, hs5, hs6⟩ := hsh
  refine ⟨⟨rfl, rfl, rfl, rfl, rfl, rfl, rfl, rfl, rfl, rfl, rfl⟩, ?_, ?_, ?_, ?_, ?_, ?_, ?_, ?_,
    rfl, rfl, rfl, rfl, rfl⟩
  · intro i h1
    constructor
    · show (padLoop (fun _ => (-1 : Int)) st.num_nodes env.max_num_nodes st.nodes).getD i 0
        = st.nodes.getD i 0
      rw [getD_padLoop, if_neg (by intro hc; omega)]
    · show (padLoop (fun _ => (-1 : Int)) st.num_nodes env.max_num_nodes st.starter).getD i 0
        = st.starter.getD i 0
      rw [getD_padLoop, if_neg (by intro hc; omega)]
  · intro i h1
    show (padLoop (fun v => ((-1 : Int), v.2)) st.num_edges (env.max_num_nodes * 3)
        st.edges).getD i (0, 0, 0) = st.edges.getD i (0, 0, 0)
    rw [getD_padLoop, if_neg (by intro hc; omega)]
  · intro i h1
    show (padLoop (fun _ => (-1 : Int)) st.num_vars env.max_num_vars st.vars_in_scope).getD i 0
      = st.vars_in_scope.getD i 0
    rw [getD_padLoop, if_neg (by intro hc; omega)]
  · intro i h1
    show (padLoop (fun v => ((-1 : Int), v.2)) st.num_args env.max_num_vars
        st.args_in_scope).getD i (0, 0) = st.args_in_scope.getD i (0, 0)
    rw [getD_padLoop, if_neg (by intro hc; omega)]
  · intro i h1 h2
    constructor
    · show (padLoop (fun _ => (-1 : Int)) st.num_nodes env.max_num_nodes st.nodes).getD i 0 = -1
      rw [getD_padLoop, if_pos ⟨by omega, h1, h2⟩]
    · show (padLoop (fun _ => (-1 : Int)) st.num_nodes env.max_num_nodes st.starter).getD i 0
        = -1
      rw [getD_padLoop, if_pos ⟨by omega, h1, h2⟩]
  · intro i h1 h2
    show ((padLoop (fun v => ((-1 : Int), v.2)) st.num_edges (env.max_num_nodes * 3)
        st.edges).getD i (0, 0, 0)).1 = -1
    rw [getD_padLoop, if_pos ⟨by omega, h1, h2⟩]
  · intro i h1 h2
    show (padLoop (fun _ => (-1 : Int)) st.num_vars env.max_num_vars st.vars_in_scope).getD i 0
      = -1
    rw [getD_padLoop, if_pos ⟨by omega, h1, h2⟩]
  · intro i h1 h2
    show ((padLoop (fun v => ((-1 : Int), v.2)) st.num_args env.max_num_vars
        st.args_in_scope).getD i (0, 0)).1 = -1
    rw [getD_padLoop, if_pos ⟨by omega, h1, h2⟩]

/-- Witness for the amended C3 at `envEx` and `stEx`. -/
theorem get_state_frame_witness :
    ((ASTEnv.get_state envEx stEx).1.num_nodes = stEx.num_nodes ∧
      (ASTEnv.get_state envEx stEx).1.num_edges = stEx.num_edges ∧
      (ASTEnv.get_state envEx stEx).1.num_vars = stEx.num_vars ∧
      (ASTEnv.get_state envEx stEx).1.num_args = stEx.num_args ∧
      (ASTEnv.get_state envEx stEx).1.num_tests = stEx.num_tests ∧
      (ASTEnv.get_state envEx stEx).1.cursor = stEx.cursor ∧
      (ASTEnv.get_state envEx stEx).1.assignment = stEx.assignment ∧
      (ASTEnv.get_state envEx stEx).1.code = stEx.code ∧
      (ASTEnv.get_state envEx stEx).1.permitted_actions = stEx.permitted_actions ∧
      (ASTEnv.get_state envEx stEx).1.tests = stEx.tests ∧
      (ASTEnv.get_state envEx stEx).1.zast = stEx.zast) ∧
    (∀ i : Nat, (i : Int) < stEx.num_nodes →
      (ASTEnv.get_state envEx stEx).1.nodes.getD i 0 = stEx.nodes.getD i 0 ∧
      (ASTEnv.get_state envEx stEx).1.starter.getD i 0 = stEx.starter.getD i 0) ∧
    (∀ i : Nat, (i : Int) < stEx.num_edges →
      (ASTEnv.get_state envEx stEx).1.edges.getD i (0, 0, 0) = stEx.edges.getD i (0, 0, 0)) ∧
    (∀ i : Nat, (i : Int) < stEx.num_vars →
      (ASTEnv.get_state envEx stEx).1.vars_in_scope.getD i 0 = stEx.vars_in_scope.getD i 0) ∧
    (∀ i : Nat, (i : Int) < stEx.num_args →
      (ASTEnv.get_state envEx stEx).1.args_in_scope.getD i (0, 0)
        = stEx.args_in_scope.getD i (0, 0)) ∧
    (∀ i : Nat, stEx.num_nodes ≤ (i : Int) → i < envEx.max_num_nodes →
      (ASTEnv.get_state envEx stEx).1.nodes.getD i 0 = -1 ∧
      (ASTEnv.get_state envEx stEx).1.starter.getD i 0 = -1) ∧
    (∀ i : Nat, stEx.num_edges ≤ (i : Int) → i < envEx.max_num_nodes * 3 →
      ((ASTEnv.get_state envEx stEx).1.edges.getD i (0, 0, 0)).1 = -1) ∧
    (∀ i : Nat, stEx.num_vars ≤ (i : Int) → i < envEx.max_num_vars →
      (ASTEnv.get_state envEx stEx).1.vars_in_scope.getD i 0 = -1) ∧
    (∀ i : Nat, stEx.num_args ≤ (i : Int) → i < envEx.max_num_vars →
      ((ASTEnv.get_state envEx stEx).1.args_in_scope.getD i (0, 0)).1 = -1) ∧
    ((ASTEnv.get_state envEx stEx).2.nodes = (ASTEnv.get_state envEx stEx).1.nodes ∧
      (ASTEnv.get_state envEx stEx).2.starter = (ASTEnv.get_state envEx stEx).1.starter ∧
      (ASTEnv.get_state envEx stEx).2.edges = (ASTEnv.get_state envEx stEx).1.edges ∧
      (ASTEnv.get_state envEx stEx).2.vars_in_scope
        = (ASTEnv.get_state envEx stEx).1.vars_in_scope ∧
      (ASTEnv.get_state envEx stEx).2.args_in_scope
        = (ASTEnv.get_state envEx stEx).1.args_in_scope) :=
  get_state_frame envEx stEx
    ⟨by decide, by decide, by decide, by decide, by decide, by decide⟩

/-- C4 counterexample: construction does not fail on an invalid capacity
schema.  `cfgBad` has `max_num_vars = 10 > 5 = max_num_nodes` (the source's
own default `max_num_vars` with a small node capacity), yet `__init__`
completes and returns a fully constructed environment with its derived
action and observation space sizes. -/
theorem init_accepts_vars_exceeding_nodes :
    (ASTEnv.init cfgBad).max_num_nodes < (ASTEnv.init cfgBad).max_num_vars ∧
    (ASTEnv.init cfgBad).action_space_n = 20 ∧
    (ASTEnv.init cfgBad).obs_permitted_len = 30 := by decide

/-- C4 amended: `ASTEnv.__init__` performs no validation of the capacity
schema.  For every configuration — including any with a non-positive
capacity or with `max_num_vars > max_num_nodes` — it constructs the
environment, storing the capacities unchanged and deriving the action-space
size `num_actions + max_num_vars` and observation-space shapes. -/
theorem init_no_validation (cfg : Config) :
    (ASTEnv.init cfg).max_num_nodes = cfg.max_num_nodes ∧
    (ASTEnv.init cfg).max_num_vars = cfg.max_num_vars ∧
    (ASTEnv.init cfg).num_actions = cfg.num_actions ∧
    (ASTEnv.init cfg).num_node_descriptor = cfg.num_node_descriptor ∧
    (ASTEnv.init cfg).perturbation = cfg.perturbation ∧
    (ASTEnv.init cfg).obs_assignment_n = cfg.num_assignments ∧
    (ASTEnv.init cfg).action_space_n = cfg.num_actions + cfg.max_num_vars ∧
    (ASTEnv.init cfg).obs_node_nvec = cfg.num_node_descriptor + cfg.max_num_vars + 1 ∧
    (ASTEnv.init cfg).obs_edges_rows = cfg.max_num_nodes * 3 ∧
    (ASTEnv.init cfg).obs_permitted_len = cfg.num_actions + cfg.max_num_vars * 2 ∧
    (ASTEnv.init cfg).code_per_assignment = cfg.code_per_assignment ∧
    (ASTEnv.init cfg).assignment_dir = cfg.assignment_dir :=
  ⟨rfl, rfl, rfl, rfl, rfl, rfl, rfl, rfl, rfl, rfl, rfl, rfl⟩

/-- C9: padding is idempotent — applying `pad_states` a second time with
the same counts leaves every entry unchanged: sentinel positions are
rewritten with `-1` and all other positions are untouched. -/
theorem pad_states_idempotent (env : Env) (st : State) (obs : Obs)
    (hn0 : 0 ≤ st.num_nodes) (hn1 : st.num_nodes ≤ (env.max_num_nodes : Int))
    (he0 : 0 ≤ st.num_edges) (he1 : st.num_edges ≤ ((env.max_num_nodes * 3 : Nat) : Int))
    (hv0 : 0 ≤ st.num_vars) (hv1 : st.num_vars ≤ (env.max_num_vars : Int))
    (ha0 : 0 ≤ st.num_args) (ha1 : st.num_args ≤ (env.max_num_vars : Int)) :
    ASTEnv.pad_states env st (ASTEnv.pad_states env st obs) = ASTEnv.pad_states env st obs := by
  simp only [ASTEnv.pad_states]
  rw [padLoop_idem (fun _ => (-1 : Int)) st.num_nodes env.max_num_nodes obs.nodes
      (fun v => rfl),
    padLoop_idem (fun _ => (-1 : Int)) st.num_nodes env.max_num_nodes obs.starter
      (fun v => rfl),
    padLoop_idem (fun v => ((-1 : Int), v.2)) st.num_edges (env.max_num_nodes * 3) obs.edges
      (fun v => rfl),
    padLoop_idem (fun _ => (-1 : Int)) st.num_vars env.max_num_vars obs.vars_in_scope
      (fun v => rfl),
    padLoop_idem (fun v => ((-1 : Int), v.2)) st.num_args env.max_num_vars obs.args_in_scope
      (fun v => rfl)]

/-- Witness for C9 at `envEx`, `stEx` and the dict built from `stEx`. -/
theorem pad_states_idempotent_witness :
    ASTEnv.pad_states envEx stEx (ASTEnv.pad_states envEx stEx (ASTEnv.rawObs stEx))
      = ASTEnv.pad_states envEx stEx (ASTEnv.rawObs stEx) :=
  pad_states_idempotent envEx stEx (ASTEnv.rawObs stEx)
    (by decide) (by decide) (by decide) (by decide)
    (by decide) (by decide) (by decide) (by decide)

/-- C5: for every action and Ready state, `step` returns a 4-tuple whose
info component is the empty mapping, whose reward is in `{0, 1}` (assuming
the engine's check operation returns 1 iff all tests pass, else 0), and
whose done flag is true iff the reward equals 1; the observation is the
encoded state after the action. -/
theorem step_return_contract (env : Env) (ops : EngineOps) (st : State) (action : Int)
    (hr : ops.check_ast (ops.take_action st action) = 0 ∨
      ops.check_ast (ops.take_action st action) = 1) :
    (ASTEnv.step env ops st action).2.2.2.2 = [] ∧
    ((ASTEnv.step env ops st action).2.2.1 = 0 ∨ (ASTEnv.step env ops st action).2.2.1 = 1) ∧
    ((ASTEnv.step env ops st action).2.2.2.1 = true ↔
      (ASTEnv.step env ops st action).2.2.1 = 1) ∧
    (ASTEnv.step env ops st action).2.1 = (ASTEnv.get_state env (ops.take_action st action)).2 := by
  refine ⟨rfl, hr, ?_, rfl⟩
  show (ops.check_ast (ops.take_action st action) == 1) = true ↔
    ops.check_ast (ops.take_action st action) = 1
  exact beq_iff_eq

/-- Witness for C5 at `envEx`, `opsEx`, `stEx` and action 0. -/
theorem step_return_contract_witness :
    (ASTEnv.step envEx opsEx stEx 0).2.2.2.2 = [] ∧
    ((ASTEnv.step envEx opsEx stEx 0).2.2.1 = 0 ∨ (ASTEnv.step envEx opsEx stEx 0).2.2.1 = 1) ∧
    ((ASTEnv.step envEx opsEx stEx 0).2.2.2.1 = true ↔
      (ASTEnv.step envEx opsEx stEx 0).2.2.1 = 1) ∧
    (ASTEnv.step envEx opsEx stEx 0).2.1 = (ASTEnv.get_state envEx (opsEx.take_action stEx 0)).2 :=
  step_return_contract envEx opsEx stEx 0 (by decide)

/-- C6: after every `reset` and after every `step`, the
`permitted_actions` field of the returned observation has length exactly
`num_actions + 2*max_num_vars` — the fixed ctypes struct shape, which the
encoder never modifies — so the length is constant across the episode. -/
theorem permitted_actions_shape (env : Env) (ops : EngineOps) (r1 r2 : Nat)
    (st : State) (action : Int)
    (hload : ∀ d a c p, (ops.init_assignment d a c p).permitted_actions.length
      = env.num_actions + 2 * env.max_num_vars)
    (htake : ∀ s a, (ops.take_action s a).permitted_actions.length
      = env.num_actions + 2 * env.max_num_vars) :
    (ASTEnv.reset env ops r1 r2).2.permitted_actions.length
        = env.num_actions + 2 * env.max_num_vars ∧
    (ASTEnv.step env ops st action).2.1.permitted_actions.length
        = env.num_actions + 2 * env.max_num_vars := by
  constructor
  · exact hload env.assignment_dir _ _ env.perturbation
  · exact htake st action

/-- Witness for C6 at `envEx` and the fixed-shape engine `opsConstEx`. -/
theorem permitted_actions_shape_witness :
    (ASTEnv.reset envEx opsConstEx 0 0).2.permitted_actions.length
        = envEx.num_actions + 2 * envEx.max_num_vars ∧
    (ASTEnv.step envEx opsConstEx stEx 0).2.1.permitted_actions.length
        = envEx.num_actions + 2 * envEx.max_num_vars :=
  permitted_actions_shape envEx opsConstEx 0 0 stEx 0
    (by
      intro d a c p
      show stEx.permitted_actions.length = envEx.num_actions + 2 * envEx.max_num_vars
      decide)
    (by
      intro s a
      show stEx.permitted_actions.length = envEx.num_actions + 2 * envEx.max_num_vars
      decide)

/-- C7: if a field's marker positions contain no sentinel `-1` anywhere
within its capacity, `unpad_states` returns that field fully live at
capacity length, unchanged; in particular an encoded state with exactly
`max_num_nodes` live (non-negative) nodes contains no sentinel in `nodes`
and decodes to the full-length array unchanged. -/
theorem unpad_full_capacity (env : Env) (obs : Obs)
    (hlnodes : obs.nodes.length = env.max_num_nodes)
    (hledges : obs.edges.length = env.max_num_nodes * 3)
    (hlvars : obs.vars_in_scope.length = env.max_num_vars)
    (hlargs : obs.args_in_scope.length = env.max_num_vars) :
    ((∀ i : Nat, i < env.max_num_nodes → obs.nodes.getD i 0 ≠ -1) →
      (ASTEnv.unpad_states env obs).nodes = obs.nodes ∧
      (ASTEnv.unpad_states env obs).nodes.length = env.max_num_nodes) ∧
    ((∀ i : Nat, i < env.max_num_nodes * 3 → (obs.edges.getD i (0, 0, 0)).1 ≠ -1) →
      (ASTEnv.unpad_states env obs).edges = obs.edges ∧
      (ASTEnv.unpad_states env obs).edges.length = env.max_num_nodes * 3) ∧
    ((∀ i : Nat, i < env.max_num_vars → obs.vars_in_scope.getD i 0 ≠ -1) →
      (ASTEnv.unpad_states env obs).vars_in_scope = obs.vars_in_scope ∧
      (ASTEnv.unpad_states env obs).vars_in_scope.length = env.max_num_vars) ∧
    ((∀ i : Nat, i < env.max_num_vars → (obs.args_in_scope.getD i (0, 0)).1 ≠ -1) →
      (ASTEnv.unpad_states env obs).args_in_scope = obs.args_in_scope ∧
      (ASTEnv.unpad_states env obs).args_in_scope.length = env.max_num_vars) ∧
    (∀ st : State, State.wfShape env st → st.num_nodes = (env.max_num_nodes : Int) →
      (∀ i : Nat, i < env.max_num_nodes → 0 ≤ st.nodes.getD i 0) →
      (∀ i : Nat, i < env.max_num_nodes →
        (ASTEnv.pad_states env st (ASTEnv.rawObs st)).nodes.getD i 0 ≠ -1) ∧
      (ASTEnv.unpad_states env (ASTEnv.pad_states env st (ASTEnv.rawObs st))).nodes
        = st.nodes) := by
  refine ⟨?_, ?_, ?_, ?_, ?_⟩
  · intro h
    have hscan : sentinelScan id (0 : Int) env.max_num_nodes obs.nodes = none :=
      sentinelScan_eq_none id 0 env.max_num_nodes obs.nodes h
    rw [unpad_states_eq]
    constructor
    · show truncAt (sentinelScan id (0 : Int) env.max_num_nodes obs.nodes) obs.nodes = obs.nodes
      rw [hscan]
      rfl
    · show (truncAt (sentinelScan id (0 : Int) env.max_num_nodes obs.nodes) obs.nodes).length
        = env.max_num_nodes
      rw [hscan]
      exact hlnodes
  · intro h
    have hscan : sentinelScan Prod.fst ((0 : Int), (0 : Int), (0 : Int))
        (env.max_num_nodes * 3) obs.edges = none :=
      sentinelScan_eq_none Prod.fst (0, 0, 0) (env.max_num_nodes * 3) obs.edges h
    rw [unpad_states_eq]
    constructor
    · show truncAt (sentinelScan Prod.fst ((0 : Int), (0 : Int), (0 : Int))
          (env.max_num_nodes * 3) obs.edges) obs.edges = obs.edges
      rw [hscan]
      rfl
    · show (truncAt (sentinelScan Prod.fst ((0 : Int), (0 : Int), (0 : Int))
          (env.max_num_nodes * 3) obs.edges) obs.edges).length = env.max_num_nodes * 3
      rw [hscan]
      exact hledges
  · intro h
    have hscan : sentinelScan id (0 : Int) env.max_num_vars obs.vars_in_scope = none :=
      sentinelScan_eq_none id 0 env.max_num_vars obs.vars_in_scope h
    rw [unpad_states_eq]
    constructor
    · show truncAt (sentinelScan id (0 : Int) env.max_num_vars obs.vars_in_scope)
        obs.vars_in_scope = obs.vars_in_scope
      rw [hscan]
      rfl
    · show (truncAt (sentinelScan id (0 : Int) env.max_num_vars obs.vars_in_scope)
        obs.vars_in_scope).length = env.max_num_vars
      rw [hscan]
      exact hlvars
  · intro h
    have hscan : sentinelScan Prod.fst ((0 : Int), (0 : Int)) env.max_num_vars
        obs.args_in_scope = none :=
      sentinelScan_eq_none Prod.fst (0, 0) env.max_num_vars obs.args_in_scope h
    rw [unpad_states_eq]
    constructor
    · show truncAt (sentinelScan Prod.fst ((0 : Int), (0 : Int)) env.max_num_vars
          obs.args_in_scope) obs.args_in_scope = obs.args_in_scope
      rw [hscan]
      rfl
    · show (truncAt (sentinelScan Prod.fst ((0 : Int), (0 : Int)) env.max_num_vars
          obs.args_in_scope) obs.args_in_scope).length = env.max_num_vars
      rw [hscan]
      exact hlargs
  · intro st hsh hnum hlive
    have hpadnodes : (ASTEnv.pad_states env st (ASTEnv.rawObs st)).nodes = st.nodes := by
      show padLoop (fun _ => (-1 : Int)) st.num_nodes env.max_num_nodes st.nodes = st.nodes
      exact padLoop_of_cap_le _ _ _ _ (le_of_eq hnum.symm)
    have hnosent : ∀ i : Nat, i < env.max_num_nodes →
        (ASTEnv.pad_states env st (ASTEnv.rawObs st)).nodes.getD i 0 ≠ -1 := by
      intro i hi
      rw [hpadnodes]
      have := hlive i hi
      omega
    refine ⟨hnosent, ?_⟩
    have hscan : sentinelScan id (0 : Int) env.max_num_nodes
        (ASTEnv.pad_states env st (ASTEnv.rawObs st)).nodes = none :=
      sentinelScan_eq_none id 0 env.max_num_nodes _ hnosent
    rw [unpad_states_eq]
    show truncAt (sentinelScan id (0 : Int) env.max_num_nodes
        (ASTEnv.pad_states env st (ASTEnv.rawObs st)).nodes)
        (ASTEnv.pad_states env st (ASTEnv.rawObs st)).nodes = st.nodes
    rw [hscan]
    show (ASTEnv.pad_states env st (ASTEnv.rawObs st)).nodes = st.nodes
    exact hpadnodes

/-- Witness for C7 at `envEx` and the sentinel-free dict built from `stEx`. -/
theorem unpad_full_capacity_witness :
    ((∀ i : Nat, i < envEx.max_num_nodes → (ASTEnv.rawObs stEx).nodes.getD i 0 ≠ -1) →
      (ASTEnv.unpad_states envEx (ASTEnv.rawObs stEx)).nodes = (ASTEnv.rawObs stEx).nodes ∧
      (ASTEnv.unpad_states envEx (ASTEnv.rawObs stEx)).nodes.length = envEx.max_num_nodes) ∧
    ((∀ i : Nat, i < envEx.max_num_nodes * 3 →
        ((ASTEnv.rawObs stEx).edges.getD i (0, 0, 0)).1 ≠ -1) →
      (ASTEnv.unpad_states envEx (ASTEnv.rawObs stEx)).edges = (ASTEnv.rawObs stEx).edges ∧
      (ASTEnv.unpad_states envEx (ASTEnv.rawObs stEx)).edges.length = envEx.max_num_nodes * 3) ∧
    ((∀ i : Nat, i < envEx.max_num_vars → (ASTEnv.rawObs stEx).vars_in_scope.getD i 0 ≠ -1) →
      (ASTEnv.unpad_states envEx (ASTEnv.rawObs stEx)).vars_in_scope
        = (ASTEnv.rawObs stEx).vars_in_scope ∧
      (ASTEnv.unpad_states envEx (ASTEnv.rawObs stEx)).vars_in_scope.length
        = envEx.max_num_vars) ∧
    ((∀ i : Nat, i < envEx.max_num_vars →
        ((ASTEnv.rawObs stEx).args_in_scope.getD i (0, 0)).1 ≠ -1) →
      (ASTEnv.unpad_states envEx (ASTEnv.rawObs stEx)).args_in_scope
        = (ASTEnv.rawObs stEx).args_in_scope ∧
      (ASTEnv.unpad_states envEx (ASTEnv.rawObs stEx)).args_in_scope.length
        = envEx.max_num_vars) ∧
    (∀ st : State, State.wfShape envEx st → st.num_nodes = (envEx.max_num_nodes : Int) →
      (∀ i : Nat, i < envEx.max_num_nodes → 0 ≤ st.nodes.getD i 0) →
      (∀ i : Nat, i < envEx.max_num_nodes →
        (ASTEnv.pad_states envEx st (ASTEnv.rawObs st)).nodes.getD i 0 ≠ -1) ∧
      (ASTEnv.unpad_states envEx (ASTEnv.pad_states envEx st (ASTEnv.rawObs st))).nodes
        = st.nodes) :=
  unpad_full_capacity envEx (ASTEnv.rawObs stEx) (by decide) (by decide) (by decide) (by decide)

/-- C8: `reset` samples an assignment from `[0, num_assignments)` and a
code variant from `[0, code_per_assignment[assignment])` (uniformly, via
the spec-modelled library samplers), delegates loading to the engine's
`init_assignment` with the configured assignment directory and
perturbation, and returns the encoded observation of the loaded state. -/
theorem reset_samples_and_delegates (env : Env) (ops : EngineOps) (r1 r2 : Nat)
    (hn : 0 < env.obs_assignment_n)
    (hcpa : 0 < env.code_per_assignment.getD (discreteSample env.obs_assignment_n r1) 0) :
    discreteSample env.obs_assignment_n r1 < env.obs_assignment_n ∧
    0 ≤ randint 0
        ((env.code_per_assignment.getD (discreteSample env.obs_assignment_n r1) 0 : Int) - 1)
        r2 ∧
    randint 0
        ((env.code_per_assignment.getD (discreteSample env.obs_assignment_n r1) 0 : Int) - 1)
        r2
      < (env.code_per_assignment.getD (discreteSample env.obs_assignment_n r1) 0 : Int) ∧
    ASTEnv.reset env ops r1 r2
      = ASTEnv.get_state env (ops.init_assignment env.assignment_dir
          (discreteSample env.obs_assignment_n r1)
          (randint 0
            ((env.code_per_assignment.getD (discreteSample env.obs_assignment_n r1) 0 : Int) - 1)
            r2)
          env.perturbation) := by
  have hK : (0 : Int)
      < (env.code_per_assignment.getD (discreteSample env.obs_assignment_n r1) 0 : Int) := by
    exact_mod_cast hcpa
  have hre : randint 0
      ((env.code_per_assignment.getD (discreteSample env.obs_assignment_n r1) 0 : Int) - 1) r2
      = (r2 : Int)
        % (env.code_per_assignment.getD (discreteSample env.obs_assignment_n r1) 0 : Int) := by
    unfold randint
    have e : ((env.code_per_assignment.getD (discreteSample env.obs_assignment_n r1) 0 : Int)
        - 1) - 0 + 1
        = (env.code_per_assignment.getD (discreteSample env.obs_assignment_n r1) 0 : Int) := by
      ring
    rw [e, zero_add]
  refine ⟨Nat.mod_lt r1 hn, ?_, ?_, rfl⟩
  · rw [hre]
    exact Int.emod_nonneg _ (ne_of_gt hK)
  · rw [hre]
    exact Int.emod_lt_of_pos _ hK

/-- Witness for C8 at `envEx`, `opsEx` and source draws 0, 0. -/
theorem reset_samples_and_delegates_witness :
    discreteSample envEx.obs_assignment_n 0 < envEx.obs_assignment_n ∧
    0 ≤ randint 0
        ((envEx.code_per_assignment.getD (discreteSample envEx.obs_assignment_n 0) 0 : Int) - 1)
        0 ∧
    randint 0
        ((envEx.code_per_assignment.getD (discreteSample envEx.obs_assignment_n 0) 0 : Int) - 1)
        0
      < (envEx.code_per_assignment.getD (discreteSample envEx.obs_assignment_n 0) 0 : Int) ∧
    ASTEnv.reset envEx opsEx 0 0
      = ASTEnv.get_state envEx (opsEx.init_assignment envEx.assignment_dir
          (discreteSample envEx.obs_assignment_n 0)
          (randint 0
            ((envEx.code_per_assignment.getD (discreteSample envEx.obs_assignment_n 0) 0 : Int)
              - 1) 0)
          envEx.perturbation) :=
  reset_samples_and_delegates envEx opsEx 0 0 (by decide) (by decide)

/-- C10: `unpad_states` determines the `starter` boundary solely from
`nodes`: when the first sentinel of `nodes` sits at index `i`, both
`nodes` and `starter` are truncated to length `i`, whatever `starter`
contains; and when `nodes` holds no sentinel within `max_num_nodes`,
`starter` is returned at full capacity even if `starter` itself contains
`-1` entries. -/
theorem unpad_starter_boundary_from_nodes (env : Env) (obs : Obs) (s2 : List Int)
    (hs2 : s2.length = env.max_num_nodes) :
    (∀ i : Nat, i < env.max_num_nodes → obs.nodes.getD i 0 = -1 →
      (∀ j : Nat, j < i → obs.nodes.getD j 0 ≠ -1) →
      (ASTEnv.unpad_states env { obs with starter := s2 }).nodes = obs.nodes.take i ∧
      (ASTEnv.unpad_states env { obs with starter := s2 }).starter = s2.take i) ∧
    ((∀ i : Nat, i < env.max_num_nodes → obs.nodes.getD i 0 ≠ -1) →
      (ASTEnv.unpad_states env { obs with starter := s2 }).starter = s2 ∧
      (ASTEnv.unpad_states env { obs with starter := s2 }).starter.length
        = env.max_num_nodes) := by
  constructor
  · intro i hi hsent hfirst
    have hscan : sentinelScan id (0 : Int) env.max_num_nodes obs.nodes = some i :=
      sentinelScan_eq_some id 0 env.max_num_nodes obs.nodes i hi hsent hfirst
    rw [unpad_states_eq]
    constructor
    · show truncAt (sentinelScan id (0 : Int) env.max_num_nodes obs.nodes) obs.nodes
        = obs.nodes.take i
      rw [hscan]
      rfl
    · show truncAt (sentinelScan id (0 : Int) env.max_num_nodes obs.nodes) s2 = s2.take i
      rw [hscan]
      rfl
  · intro hno
    have hscan : sentinelScan id (0 : Int) env.max_num_nodes obs.nodes = none :=
      sentinelScan_eq_none id 0 env.max_num_nodes obs.nodes hno
    rw [unpad_states_eq]
    constructor
    · show truncAt (sentinelScan id (0 : Int) env.max_num_nodes obs.nodes) s2 = s2
      rw [hscan]
      rfl
    · show (truncAt (sentinelScan id (0 : Int) env.max_num_nodes obs.nodes) s2).length
        = env.max_num_nodes
      rw [hscan]
      exact hs2

/-- Witness for C10 at `envEx`, the padded dict of `stEx` (first sentinel
of `nodes` at index 1) and a replacement `starter` that itself contains a
sentinel entry. -/
theorem unpad_starter_boundary_from_nodes_witness :
    (∀ i : Nat, i < envEx.max_num_nodes →
      (ASTEnv.pad_states envEx stEx (ASTEnv.rawObs stEx)).nodes.getD i 0 = -1 →
      (∀ j : Nat, j < i →
        (ASTEnv.pad_states envEx stEx (ASTEnv.rawObs stEx)).nodes.getD j 0 ≠ -1) →
      (ASTEnv.unpad_states envEx
          { ASTEnv.pad_states envEx stEx (ASTEnv.rawObs stEx) with starter := [-1, 3] }).nodes
        = (ASTEnv.pad_states envEx stEx (ASTEnv.rawObs stEx)).nodes.take i ∧
      (ASTEnv.unpad_states envEx
          { ASTEnv.pad_states envEx stEx (ASTEnv.rawObs stEx) with starter := [-1, 3] }).starter
        = ([-1, 3] : List Int).take i) ∧
    ((∀ i : Nat, i < envEx.max_num_nodes →
      (ASTEnv.pad_states envEx stEx (ASTEnv.rawObs stEx)).nodes.getD i 0 ≠ -1) →
      (ASTEnv.unpad_states envEx
          { ASTEnv.pad_states envEx stEx (ASTEnv.rawObs stEx) with starter := [-1, 3] }).starter
        = [-1, 3] ∧
      (ASTEnv.unpad_states envEx
          { ASTEnv.pad_states envEx stEx (ASTEnv.rawObs stEx) with
              starter := [-1, 3] }).starter.length
        = envEx.max_num_nodes) :=
  unpad_starter_boundary_from_nodes envEx
    (ASTEnv.pad_states envEx stEx (ASTEnv.rawObs stEx)) [-1, 3] (by decide)
